import Mathlib

/-! Shallow embedding of `src/main.cpp`, a single-file CARLA client demo.

The program is a straight line of SDK calls (connect, query world/map,
select a blueprint, spawn a vehicle, place the spectator, drive 50 ticks,
brake, tear down).  We model every SDK call by an oracle (`SdkEnv`) whose
fields give the call's result (`Except Err _`, where `.error` models a
thrown C++ exception), and we interpret `main` as a function from the
argument list and the oracle to an event trace (the observable behaviour:
stdout/stderr lines, control messages, spawn requests, sleeps, handle
releases) together with a termination outcome.  The source's 32-bit floats
are modelled as rationals. -/

namespace Carla

/-- A 3-component vector (`carla::geom::Location`, also used for velocities). -/
structure Vec3 where
  x : ℚ
  y : ℚ
  z : ℚ
deriving DecidableEq, Repr

/-- `carla::geom::Rotation` (pitch, yaw, roll, in degrees). -/
structure Rotation where
  pitch : ℚ
  yaw : ℚ
  roll : ℚ
deriving DecidableEq, Repr

/-- `carla::geom::Transform`. -/
structure Transform where
  location : Vec3
  rotation : Rotation
deriving DecidableEq, Repr

/-- The three control fields set by `main.cpp` (`carla::rpc::VehicleControl`);
all other fields keep their defaults and are never touched. -/
structure VehicleControl where
  throttle : ℚ
  steer : ℚ
  brake : ℚ
deriving DecidableEq, Repr

/-- A thrown C++ exception, identified by its `what()` message. -/
structure Err where
  msg : String
deriving DecidableEq, Repr

/-- An actor blueprint, identified by its dotted id string. -/
structure Blueprint where
  id : String
deriving DecidableEq, Repr

/-- The stdout log lines of `main.cpp`, one constructor per `std::cout`
statement, carrying the data interpolated into the line. -/
inductive LogLine where
  | connecting (host : String) (port : ℕ)
  | gettingWorld
  | gettingMapName
  | connectedToWorld (name : String)
  | gettingBlueprintLibrary
  | findingBlueprint
  | spawningTesla
  | usingVehicle (id : String)
  | gettingSpawnPoints
  | spawnPointIs (l : Vec3)
  | spawningVehicle
  | castingVehicle
  | vehicleSpawned (id : ℕ)
  | settingUpSpectator
  | spectatorPositioned
  | scenarioStart
  | telemetry (i : ℕ) (loc vel : Vec3) (speedSq : ℚ)
  | applyingBrake
  | cleaningUp
  | scenarioCompleted
deriving DecidableEq, Repr

/-- Observable events of a run, in program order. -/
inductive Event where
  | stdout (l : LogLine)
  | stderr (s : String)
  | applyControl (c : VehicleControl)
  | sampleLocation (v : Vec3)
  | sampleVelocity (v : Vec3)
  | spawnRequest (bpId : String) (t : Transform)
  | destroyActor
  | setSpectatorTransform (t : Transform)
  | resetHandle (n : ℕ)
  | sleepMs (n : ℕ)
deriving DecidableEq, Repr

/-- How the process terminates: `exited n` is a `std::exit(n)` call,
`returned n` is a `return n` from `main`, `thrown e` is an escaping
exception (only an intermediate state of the `try` body; the top-level
handler converts it to `exited 1`). -/
inductive Outcome where
  | exited (n : ℕ)
  | returned (n : ℕ)
  | thrown (e : Err)
deriving DecidableEq, Repr

/-- Oracle for the SDK calls issued by `main.cpp`.  Calls inside the drive
loop are indexed by the call number.  `forwardVector` models the SDK's pure
`Transform::GetForwardVector` (trigonometry on the rotation, outside the
repository's code), as a function of the rotation it is computed from. -/
structure SdkEnv where
  connectClient : Except Err Unit
  getWorld : Except Err Unit
  getMap : Except Err Unit
  getName : Except Err String
  getBlueprintLibrary : Except Err Unit
  findModel3 : Except Err (Option Blueprint)
  filterVehicles : Except Err (List Blueprint)
  getRecommendedSpawnPoints : Except Err (List Transform)
  spawnActor : Except Err Unit
  getVehicleId : Except Err ℕ
  getSpectator : Except Err Unit
  getVehicleTransform : Except Err Transform
  forwardVector : Rotation → Vec3
  setSpectatorTransform : Except Err Unit
  applyControl : ℕ → Except Err Unit
  getLocation : ℕ → Except Err Vec3
  getVelocity : ℕ → Except Err Vec3

/-! ## Argument parsing (`main.cpp` lines 25-33) -/

/-- C `isspace` on the default locale, as used by `std::stoi` via `strtol`. -/
def isSpaceChar (c : Char) : Bool :=
  c = ' ' || c = '\t' || c = '\n' || c = '\x0b' || c = '\x0c' || c = '\r'

/-- Value of a list of decimal digit characters. -/
def digitsToNat (ds : List Char) : ℕ :=
  ds.foldl (fun a c => a * 10 + (c.toNat - 48)) 0

/-- Model of `std::stoi` (base 10): skip leading whitespace, read an
optional sign and a nonempty digit prefix (trailing characters are
ignored); throw `std::invalid_argument` when there is no digit, and
`std::out_of_range` when the value does not fit a signed 32-bit `int`.
Both exceptions carry the message `"stoi"` (libstdc++ behaviour). -/
def stoi (s : String) : Except Err Int :=
  let cs := s.data.dropWhile isSpaceChar
  let neg : Bool := cs.head? = some '-'
  let cs2 := if cs.head? = some '-' || cs.head? = some '+' then cs.tail else cs
  let ds := cs2.takeWhile Char.isDigit
  if ds = [] then .error ⟨"stoi"⟩
  else
    let n : Int := if neg then -(digitsToNat ds : Int) else (digitsToNat ds : Int)
    if n < -2147483648 then .error ⟨"stoi"⟩
    else if 2147483647 < n then .error ⟨"stoi"⟩
    else .ok n

/-- C++ conversion of `int` to `uint16_t`: reduction modulo 2^16. -/
def toUInt16Nat (n : Int) : ℕ :=
  (n % 65536).toNat

/-- `host` from the argument list (arguments after the program name):
`argv[1]` when present, else `"localhost"` (lines 25, 28-30). -/
def hostOf (args : List String) : String :=
  match args with
  | [] => "localhost"
  | h :: _ => h

/-- `port` from the argument list: `std::stoi(argv[2])` assigned to a
`uint16_t` when a second argument is present, else `2000` (lines 26, 31-33). -/
def portOf (args : List String) : Except Err ℕ :=
  match args with
  | _ :: p :: _ =>
    match stoi p with
    | .error e => .error e
    | .ok v => .ok (toUInt16Nat v)
  | _ => .ok 2000

/-- The `(host, port)` configuration, or the exception thrown while parsing. -/
def configOf (args : List String) : Except Err (String × ℕ) :=
  match portOf args with
  | .error e => .error e
  | .ok p => .ok (hostOf args, p)

/-! ## Geometry and controls -/

/-- Componentwise vector sum. -/
def vadd (a b : Vec3) : Vec3 :=
  ⟨a.x + b.x, a.y + b.y, a.z + b.z⟩

/-- Componentwise vector difference. -/
def vsub (a b : Vec3) : Vec3 :=
  ⟨a.x - b.x, a.y - b.y, a.z - b.z⟩

/-- Scalar multiple of a vector. -/
def vscale (k : ℚ) (a : Vec3) : Vec3 :=
  ⟨k * a.x, k * a.y, k * a.z⟩

/-- The spectator transform computed by `main.cpp` lines 101-108 from the
sampled vehicle transform `T` and its forward vector `f`: subtract
`f.x * 7` from `x` and `f.y * 7` from `y`, add `3` to `z`, keep the
vehicle rotation but set `pitch := -10`. -/
def spectatorTransformOf (T : Transform) (f : Vec3) : Transform :=
  { location := { x := T.location.x - f.x * 7
                  y := T.location.y - f.y * 7
                  z := T.location.z + 3 }
    rotation := { pitch := -10
                  yaw := T.rotation.yaw
                  roll := T.rotation.roll } }

/-- The control emitted on every driving tick (lines 116-119):
`throttle = 0.5`, `steer = 0`, `brake = 0`. -/
def drivingControl : VehicleControl :=
  { throttle := 1/2, steer := 0, brake := 0 }

/-- The braking control (lines 141-142): the driving control with
`throttle := 0` and `brake := 1` (steer stays 0). -/
def brakeControl : VehicleControl :=
  { throttle := 0, steer := 0, brake := 1 }

/-- Square of the speed logged on a driving tick.  Lines 128-130 compute
`speed = sqrt(vx*vx + vy*vy + vz*vz) * 3.6`; its square is rational, so we
record `(vx*vx + vy*vy + vz*vz) * 3.6^2` in the trace and relate it to the
square root formula in the theorems. -/
def speedKmhSq (v : Vec3) : ℚ :=
  (v.x * v.x + v.y * v.y + v.z * v.z) * (36/10)^2

/-! ## Trace semantics -/

/-- Sequencing of one SDK call: the events `pre` (logs and request events
preceding or constituting the call) are emitted, then the call either
throws (terminating the `try` body with `Outcome.thrown`) or returns a
value passed to the continuation. -/
def step {α : Type} (pre : List Event) (r : Except Err α)
    (k : α → List Event × Outcome) : List Event × Outcome :=
  match r with
  | .error e => (pre, .thrown e)
  | .ok a => (pre ++ (k a).1, (k a).2)

/-- The events of one driving tick (lines 122-137): apply the driving
control, sample location then velocity, print the telemetry line, sleep
100 ms. -/
def tickEvents (i : ℕ) (loc vel : Vec3) : List Event :=
  [.applyControl drivingControl, .sampleLocation loc, .sampleVelocity vel,
   .stdout (.telemetry i loc vel (speedKmhSq vel)), .sleepMs 100]

/-- The drive loop (lines 122-137), `fuel` iterations starting at tick
index `i`; returns the events and the first exception, if any.  The
`applyControl` event is emitted even when the call throws (the call was
issued); the sample events are only emitted once the corresponding read
succeeded. -/
def driveTicks (env : SdkEnv) : ℕ → ℕ → List Event × Option Err
  | 0, _ => ([], none)
  | fuel + 1, i =>
    match env.applyControl i with
    | .error e => ([.applyControl drivingControl], some e)
    | .ok _ =>
      match env.getLocation i with
      | .error e => ([.applyControl drivingControl], some e)
      | .ok loc =>
        match env.getVelocity i with
        | .error e => ([.applyControl drivingControl, .sampleLocation loc], some e)
        | .ok vel =>
          let r := driveTicks env fuel (i + 1)
          (tickEvents i loc vel ++ r.1, r.2)

/-- Lines 114-167: scenario banner, the 50-tick drive loop, the braking
control (the 51st `ApplyControl` call), the 2 s dwell, the cleanup logs,
release of the local `vehicle` and `actor` handles, and `std::exit(0)`. -/
def drivePhase (env : SdkEnv) : List Event × Outcome :=
  let l := driveTicks env 50 0
  match l.2 with
  | some e => ([Event.stdout .scenarioStart] ++ l.1, .thrown e)
  | none =>
    step ([Event.stdout .scenarioStart] ++ l.1 ++
          [.stdout .applyingBrake, .applyControl brakeControl])
      (env.applyControl 50) (fun _ =>
        ([.sleepMs 2000, .stdout .cleaningUp, .resetHandle 0, .resetHandle 1,
          .stdout .scenarioCompleted], .exited 0))

/-- Lines 94-111: spectator setup.  The vehicle transform is sampled once;
the spectator transform is computed from it and its forward vector and
applied once. -/
def spectatorPhase (env : SdkEnv) : List Event × Outcome :=
  step [Event.stdout .settingUpSpectator] env.getSpectator (fun _ =>
    step [] env.getVehicleTransform (fun T =>
      step [Event.setSpectatorTransform
              (spectatorTransformOf T (env.forwardVector T.rotation))]
        env.setSpectatorTransform (fun _ =>
          let r := drivePhase env
          ([Event.stdout .spectatorPositioned] ++ r.1, r.2))))

/-- Lines 69-92: spawn-point retrieval (empty list is fatal: direct stderr
write and `return 1`), spawn of the selected blueprint at spawn point 0,
the id log, and the 1 s settle sleep; then the spectator phase. -/
def spawnPhase (env : SdkEnv) (bpId : String) : List Event × Outcome :=
  step [Event.stdout .gettingSpawnPoints] env.getRecommendedSpawnPoints (fun sps =>
    match sps with
    | [] => ([Event.stderr "Error: No spawn points found"], .returned 1)
    | sp :: _ =>
      step [Event.stdout (.spawnPointIs sp.location), .stdout .spawningVehicle,
            .spawnRequest bpId sp] env.spawnActor (fun _ =>
        step [Event.stdout .castingVehicle] env.getVehicleId (fun vid =>
          let r := spectatorPhase env
          ([Event.stdout (.vehicleSpawned vid), .sleepMs 1000] ++ r.1, r.2))))

/-- The whole `try` body of `main` (lines 23-167): argument parsing,
connection, world/map/library queries, blueprint selection (exact lookup
of `vehicle.tesla.model3`, else first `vehicle.*` filter match, empty
filter fatal with a direct stderr write and `return 1`), then the spawn,
spectator and drive phases. -/
def runTry (args : List String) (env : SdkEnv) : List Event × Outcome :=
  match configOf args with
  | .error e => ([], .thrown e)
  | .ok hp =>
    step [Event.stdout (.connecting hp.1 hp.2)] env.connectClient (fun _ =>
      step [Event.stdout .gettingWorld] env.getWorld (fun _ =>
        step [Event.stdout .gettingMapName] env.getMap (fun _ =>
          step [] env.getName (fun nm =>
            step [Event.stdout (.connectedToWorld nm),
                  .stdout .gettingBlueprintLibrary] env.getBlueprintLibrary (fun _ =>
              step [Event.stdout .findingBlueprint] env.findModel3 (fun obp =>
                match obp with
                | some bp =>
                  let r := spawnPhase env bp.id
                  ([Event.stdout .spawningTesla] ++ r.1, r.2)
                | none =>
                  step [] env.filterVehicles (fun vs =>
                    match vs with
                    | [] => ([Event.stderr "Error: No vehicle blueprints found"],
                             .returned 1)
                    | b :: _ =>
                      let r := spawnPhase env b.id
                      ([Event.stdout (.usingVehicle b.id)] ++ r.1, r.2))))))))

/-- `main` with its top-level handler (lines 169-172): a thrown condition
is reported as a single `Error occurred: <what()>` stderr line followed by
`std::exit(1)`; every other outcome passes through unchanged. -/
def runMain (args : List String) (env : SdkEnv) : List Event × Outcome :=
  match (runTry args env).2 with
  | .thrown e => ((runTry args env).1 ++
      [Event.stderr ("Error occurred: " ++ e.msg)], .exited 1)
  | _ => runTry args env

/-! ## Trace projections -/

/-- The control message carried by an event, if any. -/
def controlOf : Event → Option VehicleControl
  | .applyControl c => some c
  | _ => none

/-- The sequence of control messages in a trace. -/
def controlsOf (tr : List Event) : List VehicleControl :=
  tr.filterMap controlOf

/-- The stderr line carried by an event, if any. -/
def stderrLineOf : Event → Option String
  | .stderr s => some s
  | _ => none

/-- The sequence of stderr lines in a trace. -/
def stderrOf (tr : List Event) : List String :=
  tr.filterMap stderrLineOf

/-- Events produced inside the drive loop. -/
def isLoopEvent : Event → Bool
  | .applyControl _ => true
  | .sampleLocation _ => true
  | .sampleVelocity _ => true
  | .stdout (.telemetry _ _ _ _) => true
  | .sleepMs 100 => true
  | _ => false

/-- Control and telemetry events (the events claim C8 is about). -/
def isReducedEvent : Event → Bool
  | .applyControl _ => true
  | .sampleLocation _ => true
  | .sampleVelocity _ => true
  | .stdout (.telemetry _ _ _ _) => true
  | _ => false

/-- A trace restricted to control and telemetry events. -/
def reducedOf (tr : List Event) : List Event :=
  tr.filter isReducedEvent

/-- A nonempty all-digits string. -/
def isNumeral (s : String) : Bool :=
  !s.data.isEmpty && s.data.all Char.isDigit

/-- The value of an all-digits string. -/
def numeralValue (s : String) : ℕ :=
  digitsToNat s.data

/-- `s` begins with the prefix `pre` (on the character lists, so that it
is kernel-decidable). -/
def beginsWith (s pre : String) : Bool :=
  pre.data.isPrefixOf s.data

/-- The connection-phase calls (everything before blueprint selection)
succeed; the runs satisfying this reach the blueprint-selection code. -/
def connectOks (args : List String) (env : SdkEnv) : Prop :=
  (∃ hp, configOf args = .ok hp) ∧ env.connectClient = .ok () ∧
    env.getWorld = .ok () ∧ env.getMap = .ok () ∧
    (∃ nm, env.getName = .ok nm) ∧ env.getBlueprintLibrary = .ok ()

/-- Blueprint selection succeeded with blueprint id `bpId`: either the
exact `vehicle.tesla.model3` lookup returned it, or the lookup failed and
it is the first `vehicle.*` filter match. -/
def reachesSpawn (env : SdkEnv) (bpId : String) : Prop :=
  env.findModel3 = .ok (some ⟨bpId⟩) ∨
    (env.findModel3 = .ok none ∧ ∃ rest, env.filterVehicles = .ok (⟨bpId⟩ :: rest))

/-! ## Concrete oracles used by witnesses and counterexamples -/

/-- The Tesla blueprint. -/
def teslaBp : Blueprint := ⟨"vehicle.tesla.model3"⟩

/-- The zero transform. -/
def T0 : Transform := ⟨⟨0, 0, 0⟩, ⟨0, 0, 0⟩⟩

/-- An oracle on which every SDK call succeeds. -/
def okEnv : SdkEnv where
  connectClient := .ok ()
  getWorld := .ok ()
  getMap := .ok ()
  getName := .ok "Town10HD"
  getBlueprintLibrary := .ok ()
  findModel3 := .ok (some teslaBp)
  filterVehicles := .ok [teslaBp]
  getRecommendedSpawnPoints := .ok [T0]
  spawnActor := .ok ()
  getVehicleId := .ok 1
  getSpectator := .ok ()
  getVehicleTransform := .ok T0
  forwardVector := fun _ => ⟨1, 0, 0⟩
  setSpectatorTransform := .ok ()
  applyControl := fun _ => .ok ()
  getLocation := fun _ => .ok ⟨0, 0, 0⟩
  getVelocity := fun _ => .ok ⟨0, 0, 0⟩

/-- Oracle with no `vehicle.tesla.model3` and an empty `vehicle.*` filter. -/
def envNoBp : SdkEnv :=
  { okEnv with findModel3 := .ok none, filterVehicles := .ok [] }

/-- Oracle with a fallback blueprint only. -/
def envFallback : SdkEnv :=
  { okEnv with findModel3 := .ok none,
               filterVehicles := .ok [⟨"vehicle.audi.tt"⟩] }

/-- Oracle with an empty recommended spawn-point list. -/
def envNoSpawn : SdkEnv :=
  { okEnv with getRecommendedSpawnPoints := .ok [] }

/-- Oracle whose `GetWorld` call throws. -/
def envThrow : SdkEnv :=
  { okEnv with getWorld := .error ⟨"connection failed"⟩ }

/-- Oracle whose first `ApplyControl` call throws. -/
def envLoopThrow : SdkEnv :=
  { okEnv with applyControl := fun _ => .error ⟨"rpc failed"⟩ }

/-! ## Drive-loop lemmas -/

/-- Every event of the drive loop is a loop event. -/
theorem driveTicks_loopEvents (env : SdkEnv) :
    ∀ fuel i ev, ev ∈ (driveTicks env fuel i).1 → isLoopEvent ev = true := by
  intro fuel
  induction fuel with
  | zero => intro i ev h; simp [driveTicks] at h
  | succ n ih =>
    intro i ev h
    simp only [driveTicks] at h
    cases h1 : env.applyControl i with
    | error e => rw [h1] at h; simp at h; subst h; rfl
    | ok u =>
      rw [h1] at h
      cases h2 : env.getLocation i with
      | error e => rw [h2] at h; simp at h; subst h; rfl
      | ok loc =>
        rw [h2] at h
        cases h3 : env.getVelocity i with
        | error e =>
          rw [h3] at h; simp at h
          rcases h with h | h <;> (subst h; rfl)
        | ok vel =>
          rw [h3] at h
          simp only [List.mem_append] at h
          rcases h with h | h
          · simp [tickEvents] at h
            rcases h with h | h | h | h | h <;> (subst h; rfl)
          · exact ih (i + 1) ev h

/-- A completed drive loop emits exactly one driving control per tick. -/
theorem driveTicks_controls (env : SdkEnv) :
    ∀ fuel i, (driveTicks env fuel i).2 = none →
      controlsOf (driveTicks env fuel i).1 = List.replicate fuel drivingControl := by
  intro fuel
  induction fuel with
  | zero => intro i _; simp [driveTicks, controlsOf]
  | succ n ih =>
    intro i h
    simp only [driveTicks] at h ⊢
    cases h1 : env.applyControl i with
    | error e => rw [h1] at h; simp at h
    | ok u =>
      rw [h1] at h
      cases h2 : env.getLocation i with
      | error e => rw [h2] at h; simp at h
      | ok loc =>
        rw [h2] at h
        cases h3 : env.getVelocity i with
        | error e => rw [h3] at h; simp at h
        | ok vel =>
          rw [h3] at h
          dsimp only at h ⊢
          have hrec := ih (i + 1) h
          simp only [controlsOf, List.filterMap_append] at hrec ⊢
          simp [tickEvents, controlOf, hrec, List.replicate_succ]

/-- A completed drive loop made every `ApplyControl` call of its range,
successfully. -/
theorem driveTicks_applyOk (env : SdkEnv) :
    ∀ fuel i, (driveTicks env fuel i).2 = none →
      ∀ j, j < fuel → env.applyControl (i + j) = .ok () := by
  intro fuel
  induction fuel with
  | zero => intro i _ j hj; omega
  | succ n ih =>
    intro i h j hj
    simp only [driveTicks] at h
    cases h1 : env.applyControl i with
    | error e => rw [h1] at h; simp at h
    | ok u =>
      rw [h1] at h
      cases h2 : env.getLocation i with
      | error e => rw [h2] at h; simp at h
      | ok loc =>
        rw [h2] at h
        cases h3 : env.getVelocity i with
        | error e => rw [h3] at h; simp at h
        | ok vel =>
          rw [h3] at h
          dsimp only at h
          cases j with
          | zero => cases u; simpa using h1
          | succ m =>
            have := ih (i + 1) h m (by omega)
            simpa [Nat.add_assoc, Nat.add_comm 1 m] using this

/-- Canonical form of a drive loop all of whose calls succeed with the
given telemetry values. -/
theorem driveTicks_canonical (env : SdkEnv) (L V : ℕ → Vec3) :
    ∀ fuel i,
      (∀ j, i ≤ j → j < i + fuel →
        env.applyControl j = .ok () ∧ env.getLocation j = .ok (L j) ∧
          env.getVelocity j = .ok (V j)) →
      driveTicks env fuel i =
        (((List.range' i fuel).map (fun j => tickEvents j (L j) (V j))).flatten,
         none) := by
  intro fuel
  induction fuel with
  | zero => intro i _; simp [driveTicks]
  | succ n ih =>
    intro i hok
    obtain ⟨h1, h2, h3⟩ := hok i (le_refl i) (by omega)
    have hrest := ih (i + 1) (fun j hj1 hj2 => hok j (by omega) (by omega))
    simp only [driveTicks, h1, h2, h3, hrest, List.range'_succ, List.map_cons,
      List.flatten_cons]

/-! ## Phase membership lemmas -/

/-- Rewriting lemma: a `step` whose call succeeds. -/
theorem step_ok {α : Type} (pre : List Event) (a : α)
    (k : α → List Event × Outcome) :
    step pre (.ok a) k = (pre ++ (k a).1, (k a).2) := rfl

/-- Rewriting lemma: a `step` whose call throws. -/
theorem step_err {α : Type} (pre : List Event) (e : Err)
    (k : α → List Event × Outcome) :
    step pre (.error e) k = (pre, .thrown e) := rfl

/-- Every event of the drive phase is the scenario banner, a loop event,
the brake log or brake control, or one of the teardown events; the
teardown events only occur on runs whose drive phase exits with 0. -/
theorem drivePhase_mem (env : SdkEnv) (ev : Event) (h : ev ∈ (drivePhase env).1) :
    ev = .stdout .scenarioStart ∨ isLoopEvent ev = true ∨
      ev = .stdout .applyingBrake ∨ ev = .applyControl brakeControl ∨
      ((ev = .sleepMs 2000 ∨ ev = .stdout .cleaningUp ∨ ev = .resetHandle 0 ∨
          ev = .resetHandle 1 ∨ ev = .stdout .scenarioCompleted) ∧
        (drivePhase env).2 = .exited 0) := by
  simp only [drivePhase] at h
  cases hl : (driveTicks env 50 0).2 with
  | none =>
    rw [hl] at h
    cases h50 : env.applyControl 50 with
    | error e =>
      rw [h50, step_err] at h
      simp only [List.mem_append, List.mem_cons, List.mem_singleton,
        List.not_mem_nil, or_false, or_assoc] at h
      rcases h with h | h | h | h
      · exact Or.inl h
      · exact Or.inr (Or.inl (driveTicks_loopEvents env 50 0 ev h))
      · exact Or.inr (Or.inr (Or.inl h))
      · exact Or.inr (Or.inr (Or.inr (Or.inl h)))
    | ok u =>
      rw [h50, step_ok] at h
      simp only [List.mem_append, List.mem_cons, List.mem_singleton,
        List.not_mem_nil, or_false, or_assoc] at h
      rcases h with h | h | h | h | h | h | h | h | h
      · exact Or.inl h
      · exact Or.inr (Or.inl (driveTicks_loopEvents env 50 0 ev h))
      · exact Or.inr (Or.inr (Or.inl h))
      · exact Or.inr (Or.inr (Or.inr (Or.inl h)))
      all_goals
        refine Or.inr (Or.inr (Or.inr (Or.inr ⟨by tauto, ?_⟩)))
        simp [drivePhase, hl, h50, step_ok]
  | some e =>
    rw [hl] at h
    simp only [List.mem_append, List.mem_singleton, or_assoc] at h
    rcases h with h | h
    · exact Or.inl h
    · exact Or.inr (Or.inl (driveTicks_loopEvents env 50 0 ev h))

/-- Every event of the spectator phase is one of its own three events (the
spectator transform event being computed from the successfully sampled
vehicle transform) or an event of the drive phase; in the latter case both
phases have the same outcome. -/
theorem spectatorPhase_mem (env : SdkEnv) (ev : Event)
    (h : ev ∈ (spectatorPhase env).1) :
    ev = .stdout .settingUpSpectator ∨
      (∃ T, env.getVehicleTransform = .ok T ∧
        ev = .setSpectatorTransform
              (spectatorTransformOf T (env.forwardVector T.rotation))) ∨
      ev = .stdout .spectatorPositioned ∨
      (ev ∈ (drivePhase env).1 ∧
        (spectatorPhase env).2 = (drivePhase env).2) := by
  simp only [spectatorPhase] at h
  cases hgs : env.getSpectator with
  | error e =>
    rw [hgs, step_err] at h
    simp only [List.mem_singleton] at h
    exact Or.inl h
  | ok u =>
    rw [hgs, step_ok] at h
    cases hT : env.getVehicleTransform with
    | error e =>
      rw [hT, step_err] at h
      simp only [List.append_nil, List.mem_singleton] at h
      exact Or.inl h
    | ok T =>
      rw [hT, step_ok] at h
      cases hset : env.setSpectatorTransform with
      | error e =>
        rw [hset, step_err] at h
        simp only [List.mem_append, List.mem_singleton, List.not_mem_nil,
          List.nil_append, or_false, or_assoc] at h
        rcases h with h | h
        · exact Or.inl h
        · exact Or.inr (Or.inl ⟨T, rfl, h⟩)
      | ok v =>
        rw [hset, step_ok] at h
        simp only [List.mem_append, List.mem_singleton, List.not_mem_nil,
          List.nil_append, or_false, or_assoc] at h
        rcases h with h | h | h | h
        · exact Or.inl h
        · exact Or.inr (Or.inl ⟨T, rfl, h⟩)
        · exact Or.inr (Or.inr (Or.inl h))
        · refine Or.inr (Or.inr (Or.inr ⟨h, ?_⟩))
          simp [spectatorPhase, hgs, hT, hset, step_ok]

/-- Every event of the spawn phase is one of its own events (the fatal
stderr line forcing `returned 1`, the spawn request carrying the head of
the successfully retrieved spawn-point list, logs, the settle sleep) or an
event of the spectator phase with the same outcome. -/
theorem spawnPhase_mem (env : SdkEnv) (bpId : String) (ev : Event)
    (h : ev ∈ (spawnPhase env bpId).1) :
    ev = .stdout .gettingSpawnPoints ∨
      (ev = .stderr "Error: No spawn points found" ∧
        env.getRecommendedSpawnPoints = .ok [] ∧
        (spawnPhase env bpId).2 = .returned 1) ∨
      (∃ sps sp, env.getRecommendedSpawnPoints = .ok sps ∧ sps.head? = some sp ∧
        (ev = .stdout (.spawnPointIs sp.location) ∨ ev = .stdout .spawningVehicle ∨
          ev = .spawnRequest bpId sp)) ∨
      ev = .stdout .castingVehicle ∨ (∃ vid, ev = .stdout (.vehicleSpawned vid)) ∨
      ev = .sleepMs 1000 ∨
      (ev ∈ (spectatorPhase env).1 ∧
        (spawnPhase env bpId).2 = (spectatorPhase env).2) := by
  simp only [spawnPhase] at h
  cases hsp : env.getRecommendedSpawnPoints with
  | error e =>
    rw [hsp, step_err] at h
    simp only [List.mem_singleton] at h
    exact Or.inl h
  | ok sps =>
    rw [hsp, step_ok] at h
    cases sps with
    | nil =>
      simp only [List.mem_append, List.mem_singleton, or_assoc] at h
      rcases h with h | h
      · exact Or.inl h
      · refine Or.inr (Or.inl ⟨h, rfl, ?_⟩)
        simp [spawnPhase, hsp, step_ok]
    | cons sp rest =>
      dsimp only at h
      cases hspawn : env.spawnActor with
      | error e =>
        rw [hspawn, step_err] at h
        simp only [List.mem_append, List.mem_cons, List.mem_singleton,
          List.not_mem_nil, or_false, or_assoc] at h
        rcases h with h | h | h | h
        · exact Or.inl h
        · exact Or.inr (Or.inr (Or.inl ⟨sp :: rest, sp, rfl, rfl, Or.inl h⟩))
        · exact Or.inr (Or.inr (Or.inl ⟨sp :: rest, sp, rfl, rfl, Or.inr (Or.inl h)⟩))
        · exact Or.inr (Or.inr (Or.inl ⟨sp :: rest, sp, rfl, rfl, Or.inr (Or.inr h)⟩))
      | ok u =>
        rw [hspawn, step_ok] at h
        cases hid : env.getVehicleId with
        | error e =>
          rw [hid, step_err] at h
          simp only [List.mem_append, List.mem_cons, List.mem_singleton,
            List.not_mem_nil, or_false, or_assoc] at h
          rcases h with h | h | h | h | h
          · exact Or.inl h
          · exact Or.inr (Or.inr (Or.inl ⟨sp :: rest, sp, rfl, rfl, Or.inl h⟩))
          · exact Or.inr (Or.inr (Or.inl ⟨sp :: rest, sp, rfl, rfl, Or.inr (Or.inl h)⟩))
          · exact Or.inr (Or.inr (Or.inl ⟨sp :: rest, sp, rfl, rfl, Or.inr (Or.inr h)⟩))
          · exact Or.inr (Or.inr (Or.inr (Or.inl h)))
        | ok vid =>
          rw [hid, step_ok] at h
          simp only [List.mem_append, List.mem_cons, List.mem_singleton,
            List.not_mem_nil, or_false, or_assoc] at h
          rcases h with h | h | h | h | h | h | h | h
          · exact Or.inl h
          · exact Or.inr (Or.inr (Or.inl ⟨sp :: rest, sp, rfl, rfl, Or.inl h⟩))
          · exact Or.inr (Or.inr (Or.inl ⟨sp :: rest, sp, rfl, rfl, Or.inr (Or.inl h)⟩))
          · exact Or.inr (Or.inr (Or.inl ⟨sp :: rest, sp, rfl, rfl, Or.inr (Or.inr h)⟩))
          · exact Or.inr (Or.inr (Or.inr (Or.inl h)))
          · exact Or.inr (Or.inr (Or.inr (Or.inr (Or.inl ⟨vid, h⟩))))
          · exact Or.inr (Or.inr (Or.inr (Or.inr (Or.inr (Or.inl h)))))
          · refine Or.inr (Or.inr (Or.inr (Or.inr (Or.inr (Or.inr ⟨h, ?_⟩)))))
            simp [spawnPhase, hsp, hspawn, hid, step_ok]

/-- Every event of the `try` body is one of the connection-phase logs, the
blueprint-selection logs, the fatal empty-filter stderr line (forcing
`returned 1`), or an event of the spawn phase of a successfully selected
blueprint, with the same outcome. -/
theorem runTry_mem (args : List String) (env : SdkEnv) (ev : Event)
    (h : ev ∈ (runTry args env).1) :
    (∃ hp : String × ℕ, ev = .stdout (.connecting hp.1 hp.2)) ∨
      ev = .stdout .gettingWorld ∨
      ev = .stdout .gettingMapName ∨ (∃ nm, ev = .stdout (.connectedToWorld nm)) ∨
      ev = .stdout .gettingBlueprintLibrary ∨ ev = .stdout .findingBlueprint ∨
      ev = .stdout .spawningTesla ∨ (∃ bid, ev = .stdout (.usingVehicle bid)) ∨
      (ev = .stderr "Error: No vehicle blueprints found" ∧
        env.findModel3 = .ok none ∧ env.filterVehicles = .ok [] ∧
        (runTry args env).2 = .returned 1) ∨
      (∃ bpId, reachesSpawn env bpId ∧ ev ∈ (spawnPhase env bpId).1 ∧
        (runTry args env).2 = (spawnPhase env bpId).2) := by
  simp only [runTry] at h
  cases hcfg : configOf args with
  | error e => rw [hcfg] at h; simp at h
  | ok hp =>
    rw [hcfg] at h
    dsimp only at h
    cases hc : env.connectClient with
    | error e =>
      rw [hc, step_err] at h
      simp only [List.mem_singleton] at h
      exact Or.inl ⟨hp, h⟩
    | ok u1 =>
      rw [hc, step_ok] at h
      cases hw : env.getWorld with
      | error e =>
        rw [hw, step_err] at h
        simp only [List.mem_append, List.mem_singleton, or_assoc] at h
        rcases h with h | h
        · exact Or.inl ⟨hp, h⟩
        · exact Or.inr (Or.inl h)
      | ok u2 =>
        rw [hw, step_ok] at h
        cases hm : env.getMap with
        | error e =>
          rw [hm, step_err] at h
          simp only [List.mem_append, List.mem_singleton, or_assoc] at h
          rcases h with h | h | h
          · exact Or.inl ⟨hp, h⟩
          · exact Or.inr (Or.inl h)
          · exact Or.inr (Or.inr (Or.inl h))
        | ok u3 =>
          rw [hm, step_ok] at h
          cases hn : env.getName with
          | error e =>
            rw [hn, step_err] at h
            simp only [List.mem_append, List.mem_singleton, List.append_nil,
              or_assoc] at h
            rcases h with h | h | h
            · exact Or.inl ⟨hp, h⟩
            · exact Or.inr (Or.inl h)
            · exact Or.inr (Or.inr (Or.inl h))
          | ok nm =>
            rw [hn, step_ok] at h
            cases hb : env.getBlueprintLibrary with
            | error e =>
              rw [hb, step_err] at h
              simp only [List.mem_append, List.mem_cons, List.mem_singleton,
                List.nil_append, List.not_mem_nil, or_false, or_assoc] at h
              rcases h with h | h | h | h | h
              · exact Or.inl ⟨hp, h⟩
              · exact Or.inr (Or.inl h)
              · exact Or.inr (Or.inr (Or.inl h))
              · exact Or.inr (Or.inr (Or.inr (Or.inl ⟨nm, h⟩)))
              · exact Or.inr (Or.inr (Or.inr (Or.inr (Or.inl h))))
            | ok u4 =>
              rw [hb, step_ok] at h
              cases hf : env.findModel3 with
              | error e =>
                rw [hf, step_err] at h
                simp only [List.mem_append, List.mem_cons, List.mem_singleton,
                  List.nil_append, List.not_mem_nil, or_false, or_assoc] at h
                rcases h with h | h | h | h | h | h
                · exact Or.inl ⟨hp, h⟩
                · exact Or.inr (Or.inl h)
                · exact Or.inr (Or.inr (Or.inl h))
                · exact Or.inr (Or.inr (Or.inr (Or.inl ⟨nm, h⟩)))
                · exact Or.inr (Or.inr (Or.inr (Or.inr (Or.inl h))))
                · exact Or.inr (Or.inr (Or.inr (Or.inr (Or.inr (Or.inl h)))))
              | ok obp =>
                rw [hf, step_ok] at h
                cases obp with
                | some bp =>
                  simp only [List.mem_append, List.mem_cons, List.mem_singleton,
                    List.nil_append, List.not_mem_nil, or_false, or_assoc] at h
                  rcases h with h | h | h | h | h | h | h | h
                  · exact Or.inl ⟨hp, h⟩
                  · exact Or.inr (Or.inl h)
                  · exact Or.inr (Or.inr (Or.inl h))
                  · exact Or.inr (Or.inr (Or.inr (Or.inl ⟨nm, h⟩)))
                  · exact Or.inr (Or.inr (Or.inr (Or.inr (Or.inl h))))
                  · exact Or.inr (Or.inr (Or.inr (Or.inr (Or.inr (Or.inl h)))))
                  · exact Or.inr (Or.inr (Or.inr (Or.inr (Or.inr (Or.inr (Or.inl h))))))
                  · refine Or.inr (Or.inr (Or.inr (Or.inr (Or.inr (Or.inr (Or.inr
                      (Or.inr (Or.inr ⟨bp.id, Or.inl (by simpa using hf), h, ?_⟩))))))))
                    simp [runTry, hcfg, hc, hw, hm, hn, hb, hf, step_ok]
                | none =>
                  cases hfl : env.filterVehicles with
                  | error e =>
                    rw [hfl, step_err] at h
                    simp only [List.mem_append, List.mem_cons, List.mem_singleton,
                      List.nil_append, List.append_nil, List.not_mem_nil, or_false,
                      or_assoc] at h
                    rcases h with h | h | h | h | h | h
                    · exact Or.inl ⟨hp, h⟩
                    · exact Or.inr (Or.inl h)
                    · exact Or.inr (Or.inr (Or.inl h))
                    · exact Or.inr (Or.inr (Or.inr (Or.inl ⟨nm, h⟩)))
                    · exact Or.inr (Or.inr (Or.inr (Or.inr (Or.inl h))))
                    · exact Or.inr (Or.inr (Or.inr (Or.inr (Or.inr (Or.inl h)))))
                  | ok vs =>
                    rw [hfl, step_ok] at h
                    cases vs with
                    | nil =>
                      simp only [List.mem_append, List.mem_cons, List.mem_singleton,
                        List.nil_append, List.not_mem_nil, or_false, or_assoc] at h
                      rcases h with h | h | h | h | h | h | h
                      · exact Or.inl ⟨hp, h⟩
                      · exact Or.inr (Or.inl h)
                      · exact Or.inr (Or.inr (Or.inl h))
                      · exact Or.inr (Or.inr (Or.inr (Or.inl ⟨nm, h⟩)))
                      · exact Or.inr (Or.inr (Or.inr (Or.inr (Or.inl h))))
                      · exact Or.inr (Or.inr (Or.inr (Or.inr (Or.inr (Or.inl h)))))
                      · refine Or.inr (Or.inr (Or.inr (Or.inr (Or.inr (Or.inr (Or.inr
                          (Or.inr (Or.inl ⟨h, rfl, rfl, ?_⟩))))))))
                        simp [runTry, hcfg, hc, hw, hm, hn, hb, hf, hfl, step_ok]
                    | cons b bs =>
                      simp only [List.mem_append, List.mem_cons, List.mem_singleton,
                        List.nil_append, List.not_mem_nil, or_false, or_assoc] at h
                      rcases h with h | h | h | h | h | h | h | h
                      · exact Or.inl ⟨hp, h⟩
                      · exact Or.inr (Or.inl h)
                      · exact Or.inr (Or.inr (Or.inl h))
                      · exact Or.inr (Or.inr (Or.inr (Or.inl ⟨nm, h⟩)))
                      · exact Or.inr (Or.inr (Or.inr (Or.inr (Or.inl h))))
                      · exact Or.inr (Or.inr (Or.inr (Or.inr (Or.inr (Or.inl h)))))
                      · exact Or.inr (Or.inr (Or.inr (Or.inr (Or.inr (Or.inr (Or.inr
                          (Or.inl ⟨b.id, h⟩)))))))
                      · refine Or.inr (Or.inr (Or.inr (Or.inr (Or.inr (Or.inr (Or.inr
                          (Or.inr (Or.inr ⟨b.id, Or.inr ⟨by simpa using hf, bs,
                            by simpa using hfl⟩, h, ?_⟩))))))))
                        simp [runTry, hcfg, hc, hw, hm, hn, hb, hf, hfl, step_ok]

end Carla

namespace Carla

/-! ## Handler and success-shape lemmas -/

/-- The handler is the identity on runs whose `try` body did not throw. -/
theorem runMain_not_thrown (args : List String) (env : SdkEnv) :
    ∀ n, ((runTry args env).2 = .exited n ∨ (runTry args env).2 = .returned n) →
      runMain args env = runTry args env := by
  intro n h
  rcases h with h | h <;> simp [runMain, h]

/-- The handler appends exactly one `Error occurred:` stderr line and calls
`std::exit(1)` on runs whose `try` body threw. -/
theorem runMain_thrown (args : List String) (env : SdkEnv) (e : Err)
    (h : (runTry args env).2 = .thrown e) :
    runMain args env = ((runTry args env).1 ++
      [Event.stderr ("Error occurred: " ++ e.msg)], .exited 1) := by
  simp [runMain, h]

/-- A run of `main` exits with 0 exactly when its `try` body does, and the
handler then changes nothing. -/
theorem runMain_exit0_eq (args : List String) (env : SdkEnv)
    (h : (runMain args env).2 = .exited 0) :
    runMain args env = runTry args env ∧ (runTry args env).2 = .exited 0 := by
  cases ho : (runTry args env).2 with
  | exited n =>
    have hm : runMain args env = runTry args env :=
      runMain_not_thrown args env n (Or.inl ho)
    rw [hm, ho] at h
    exact ⟨hm, h⟩
  | returned n =>
    have hm : runMain args env = runTry args env :=
      runMain_not_thrown args env n (Or.inr ho)
    rw [hm, ho] at h
    simp at h
  | thrown e =>
    rw [runMain_thrown args env e ho] at h
    simp at h

/-- A drive phase that exits with 0 ran the full loop without an exception,
issued the brake control successfully, and produced the canonical trace. -/
theorem drivePhase_exit0 (env : SdkEnv) (h : (drivePhase env).2 = .exited 0) :
    ∃ ltr, driveTicks env 50 0 = (ltr, none) ∧ env.applyControl 50 = .ok () ∧
      drivePhase env = ([Event.stdout .scenarioStart] ++ ltr ++
        [.stdout .applyingBrake, .applyControl brakeControl, .sleepMs 2000,
         .stdout .cleaningUp, .resetHandle 0, .resetHandle 1,
         .stdout .scenarioCompleted], .exited 0) := by
  rcases hdt : driveTicks env 50 0 with ⟨ltr, lr⟩
  cases lr with
  | some e => simp [drivePhase, hdt] at h
  | none =>
    cases h50 : env.applyControl 50 with
    | error e => simp [drivePhase, hdt, h50, step_err] at h
    | ok u =>
      cases u
      exact ⟨ltr, rfl, rfl, by simp [drivePhase, hdt, h50, step_ok]⟩

/-- A spectator phase that exits with 0 sampled the vehicle transform,
set the spectator transform computed from it, and continued as the drive
phase, which also exits with 0. -/
theorem spectatorPhase_exit0 (env : SdkEnv)
    (h : (spectatorPhase env).2 = .exited 0) :
    ∃ T, env.getSpectator = .ok () ∧ env.getVehicleTransform = .ok T ∧
      env.setSpectatorTransform = .ok () ∧
      spectatorPhase env = ([Event.stdout .settingUpSpectator,
        .setSpectatorTransform (spectatorTransformOf T (env.forwardVector T.rotation)),
        .stdout .spectatorPositioned] ++ (drivePhase env).1,
        (drivePhase env).2) ∧
      (drivePhase env).2 = .exited 0 := by
  cases hgs : env.getSpectator with
  | error e => simp [spectatorPhase, hgs, step_err] at h
  | ok u1 =>
    cases u1
    cases hT : env.getVehicleTransform with
    | error e => simp [spectatorPhase, hgs, hT, step_ok, step_err] at h
    | ok T =>
      cases hset : env.setSpectatorTransform with
      | error e => simp [spectatorPhase, hgs, hT, hset, step_ok, step_err] at h
      | ok u2 =>
        cases u2
        refine ⟨T, rfl, rfl, rfl, by simp [spectatorPhase, hgs, hT, hset, step_ok], ?_⟩
        simpa [spectatorPhase, hgs, hT, hset, step_ok] using h

/-- A spawn phase that exits with 0 retrieved a nonempty spawn-point list,
spawned at its head, read the vehicle id, and continued as the spectator
phase, which also exits with 0. -/
theorem spawnPhase_exit0 (env : SdkEnv) (bpId : String)
    (h : (spawnPhase env bpId).2 = .exited 0) :
    ∃ sp sps vid, env.getRecommendedSpawnPoints = .ok (sp :: sps) ∧
      env.spawnActor = .ok () ∧ env.getVehicleId = .ok vid ∧
      spawnPhase env bpId = ([Event.stdout .gettingSpawnPoints,
        .stdout (.spawnPointIs sp.location), .stdout .spawningVehicle,
        .spawnRequest bpId sp, .stdout .castingVehicle,
        .stdout (.vehicleSpawned vid), .sleepMs 1000] ++ (spectatorPhase env).1,
        (spectatorPhase env).2) ∧
      (spectatorPhase env).2 = .exited 0 := by
  cases hsp : env.getRecommendedSpawnPoints with
  | error e => simp [spawnPhase, hsp, step_err] at h
  | ok sps =>
    cases sps with
    | nil => simp [spawnPhase, hsp, step_ok] at h
    | cons sp rest =>
      cases hspawn : env.spawnActor with
      | error e => simp [spawnPhase, hsp, hspawn, step_ok, step_err] at h
      | ok u1 =>
        cases u1
        cases hid : env.getVehicleId with
        | error e => simp [spawnPhase, hsp, hspawn, hid, step_ok, step_err] at h
        | ok vid =>
          refine ⟨sp, rest, vid, rfl, rfl, rfl,
            by simp [spawnPhase, hsp, hspawn, hid, step_ok], ?_⟩
          simpa [spawnPhase, hsp, hspawn, hid, step_ok] using h

/-- A `try` body that exits with 0 parsed the configuration, ran the whole
connection phase successfully, selected a blueprint (exact hit or first
filter match), and continued as the spawn phase, which also exits with 0. -/
theorem runTry_exit0 (args : List String) (env : SdkEnv)
    (h : (runTry args env).2 = .exited 0) :
    ∃ hp nm bpSel bpId, configOf args = .ok hp ∧ env.getName = .ok nm ∧
      reachesSpawn env bpId ∧
      (bpSel = [Event.stdout .spawningTesla] ∨
        bpSel = [Event.stdout (.usingVehicle bpId)]) ∧
      runTry args env = ([Event.stdout (.connecting hp.1 hp.2),
        .stdout .gettingWorld, .stdout .gettingMapName,
        .stdout (.connectedToWorld nm), .stdout .gettingBlueprintLibrary,
        .stdout .findingBlueprint] ++ bpSel ++ (spawnPhase env bpId).1,
        (spawnPhase env bpId).2) ∧
      (spawnPhase env bpId).2 = .exited 0 := by
  cases hcfg : configOf args with
  | error e => simp [runTry, hcfg] at h
  | ok hp =>
    cases hc : env.connectClient with
    | error e => simp [runTry, hcfg, hc, step_err] at h
    | ok u1 =>
      cases u1
      cases hw : env.getWorld with
      | error e => simp [runTry, hcfg, hc, hw, step_ok, step_err] at h
      | ok u2 =>
        cases u2
        cases hm : env.getMap with
        | error e => simp [runTry, hcfg, hc, hw, hm, step_ok, step_err] at h
        | ok u3 =>
          cases u3
          cases hn : env.getName with
          | error e => simp [runTry, hcfg, hc, hw, hm, hn, step_ok, step_err] at h
          | ok nm =>
            cases hb : env.getBlueprintLibrary with
            | error e =>
              simp [runTry, hcfg, hc, hw, hm, hn, hb, step_ok, step_err] at h
            | ok u4 =>
              cases u4
              cases hf : env.findModel3 with
              | error e =>
                simp [runTry, hcfg, hc, hw, hm, hn, hb, hf, step_ok, step_err] at h
              | ok obp =>
                cases obp with
                | some bp =>
                  refine ⟨hp, nm, [Event.stdout .spawningTesla], bp.id, rfl, rfl,
                    Or.inl (by simpa using hf), Or.inl rfl,
                    by simp [runTry, hcfg, hc, hw, hm, hn, hb, hf, step_ok], ?_⟩
                  simpa [runTry, hcfg, hc, hw, hm, hn, hb, hf, step_ok] using h
                | none =>
                  cases hfl : env.filterVehicles with
                  | error e =>
                    simp [runTry, hcfg, hc, hw, hm, hn, hb, hf, hfl, step_ok,
                      step_err] at h
                  | ok vs =>
                    cases vs with
                    | nil =>
                      simp [runTry, hcfg, hc, hw, hm, hn, hb, hf, hfl, step_ok] at h
                    | cons b bs =>
                      refine ⟨hp, nm, [Event.stdout (.usingVehicle b.id)], b.id,
                        rfl, rfl,
                        Or.inr ⟨by simpa using hf, bs, by simpa using hfl⟩,
                        Or.inr rfl,
                        by simp [runTry, hcfg, hc, hw, hm, hn, hb, hf, hfl,
                          step_ok], ?_⟩
                      simpa [runTry, hcfg, hc, hw, hm, hn, hb, hf, hfl,
                        step_ok] using h

end Carla

namespace Carla

/-- Full canonical trace of a successful `try` body. -/
theorem runTry_exit0_full (args : List String) (env : SdkEnv)
    (h : (runTry args env).2 = .exited 0) :
    ∃ hp nm bpSel bpId sp sps T vid ltr,
      configOf args = .ok hp ∧ env.getName = .ok nm ∧ reachesSpawn env bpId ∧
      env.getRecommendedSpawnPoints = .ok (sp :: sps) ∧
      env.getVehicleTransform = .ok T ∧ env.getVehicleId = .ok vid ∧
      driveTicks env 50 0 = (ltr, none) ∧
      (bpSel = [Event.stdout .spawningTesla] ∨
        bpSel = [Event.stdout (.usingVehicle bpId)]) ∧
      (runTry args env).1 =
        [Event.stdout (.connecting hp.1 hp.2), .stdout .gettingWorld,
         .stdout .gettingMapName, .stdout (.connectedToWorld nm),
         .stdout .gettingBlueprintLibrary, .stdout .findingBlueprint] ++ bpSel ++
        [Event.stdout .gettingSpawnPoints, .stdout (.spawnPointIs sp.location),
         .stdout .spawningVehicle, .spawnRequest bpId sp, .stdout .castingVehicle,
         .stdout (.vehicleSpawned vid), .sleepMs 1000,
         .stdout .settingUpSpectator,
         .setSpectatorTransform (spectatorTransformOf T (env.forwardVector T.rotation)),
         .stdout .spectatorPositioned, .stdout .scenarioStart] ++ ltr ++
        [Event.stdout .applyingBrake, .applyControl brakeControl, .sleepMs 2000,
         .stdout .cleaningUp, .resetHandle 0, .resetHandle 1,
         .stdout .scenarioCompleted] := by
  obtain ⟨hp, nm, bpSel, bpId, hcfg, hnm, hreach, hbp, htr, hsp0⟩ :=
    runTry_exit0 args env h
  obtain ⟨sp, sps, vid, hsps, hspawn, hvid, hsptr, hspec0⟩ :=
    spawnPhase_exit0 env bpId hsp0
  obtain ⟨T, hgs, hT, hset, hspectr, hdp0⟩ := spectatorPhase_exit0 env hspec0
  obtain ⟨ltr, hdt, h50, hdptr⟩ := drivePhase_exit0 env hdp0
  refine ⟨hp, nm, bpSel, bpId, sp, sps, T, vid, ltr, hcfg, hnm, hreach, hsps, hT,
    hvid, hdt, hbp, ?_⟩
  rw [congrArg Prod.fst htr, congrArg Prod.fst hsptr, congrArg Prod.fst hspectr,
    congrArg Prod.fst hdptr]
  simp

end Carla

namespace Carla

/-! ## Event provenance helpers -/

/-- A stderr line in the `try` body only occurs on the two direct-write
resource-absence paths, both of which `return 1`. -/
theorem runTry_stderr_mem (args : List String) (env : SdkEnv) (s : String)
    (h : Event.stderr s ∈ (runTry args env).1) :
    (runTry args env).2 = .returned 1 := by
  rcases runTry_mem args env _ h with ⟨hp, hev⟩ | hev | hev | ⟨nm, hev⟩ | hev | hev
    | hev | ⟨bid, hev⟩ | ⟨hev, hfind, hflt, hout⟩ | ⟨bpId, hreach, hmem, hout⟩
  · exact absurd hev (by simp)
  · exact absurd hev (by simp)
  · exact absurd hev (by simp)
  · exact absurd hev (by simp)
  · exact absurd hev (by simp)
  · exact absurd hev (by simp)
  · exact absurd hev (by simp)
  · exact absurd hev (by simp)
  · exact hout
  · rw [hout]
    rcases spawnPhase_mem env bpId _ hmem with hev | ⟨hev, hsps, hout2⟩
      | ⟨sps, sp, hsps, hhd, hev⟩ | hev | ⟨vid, hev⟩ | hev | ⟨hmem2, hout2⟩
    · exact absurd hev (by simp)
    · exact hout2
    · rcases hev with hev | hev | hev <;> exact absurd hev (by simp)
    · exact absurd hev (by simp)
    · exact absurd hev (by simp)
    · exact absurd hev (by simp)
    · rw [hout2]
      rcases spectatorPhase_mem env _ hmem2 with hev | ⟨T, hT, hev⟩ | hev
        | ⟨hmem3, hout3⟩
      · exact absurd hev (by simp)
      · exact absurd hev (by simp)
      · exact absurd hev (by simp)
      · rw [hout3]
        rcases drivePhase_mem env _ hmem3 with hev | hev | hev | hev | ⟨hev, hout4⟩
        · exact absurd hev (by simp)
        · exact absurd hev (by simp [isLoopEvent])
        · exact absurd hev (by simp)
        · exact absurd hev (by simp)
        · rcases hev with hev | hev | hev | hev | hev <;> exact absurd hev (by simp)

/-- No run of the `try` body ever issues a destroy call on the actor. -/
theorem runTry_no_destroy (args : List String) (env : SdkEnv) :
    Event.destroyActor ∉ (runTry args env).1 := by
  intro h
  rcases runTry_mem args env _ h with ⟨hp, hev⟩ | hev | hev | ⟨nm, hev⟩ | hev | hev
    | hev | ⟨bid, hev⟩ | ⟨hev, hfind, hflt, hout⟩ | ⟨bpId, hreach, hmem, hout⟩
  · exact absurd hev (by simp)
  · exact absurd hev (by simp)
  · exact absurd hev (by simp)
  · exact absurd hev (by simp)
  · exact absurd hev (by simp)
  · exact absurd hev (by simp)
  · exact absurd hev (by simp)
  · exact absurd hev (by simp)
  · exact absurd hev (by simp)
  · rcases spawnPhase_mem env bpId _ hmem with hev | ⟨hev, hsps, hout2⟩
      | ⟨sps, sp, hsps, hhd, hev⟩ | hev | ⟨vid, hev⟩ | hev | ⟨hmem2, hout2⟩
    · exact absurd hev (by simp)
    · exact absurd hev (by simp)
    · rcases hev with hev | hev | hev <;> exact absurd hev (by simp)
    · exact absurd hev (by simp)
    · exact absurd hev (by simp)
    · exact absurd hev (by simp)
    · rcases spectatorPhase_mem env _ hmem2 with hev | ⟨T, hT, hev⟩ | hev
        | ⟨hmem3, hout3⟩
      · exact absurd hev (by simp)
      · exact absurd hev (by simp)
      · exact absurd hev (by simp)
      · rcases drivePhase_mem env _ hmem3 with hev | hev | hev | hev | ⟨hev, hout4⟩
        · exact absurd hev (by simp)
        · exact absurd hev (by simp [isLoopEvent])
        · exact absurd hev (by simp)
        · exact absurd hev (by simp)
        · rcases hev with hev | hev | hev | hev | hev <;> exact absurd hev (by simp)

/-- Every spectator-transform event in a run carries the transform computed
from the successfully sampled vehicle transform and its forward vector. -/
theorem runTry_setSpectator_mem (args : List String) (env : SdkEnv) (t : Transform)
    (h : Event.setSpectatorTransform t ∈ (runTry args env).1) :
    ∃ T, env.getVehicleTransform = .ok T ∧
      t = spectatorTransformOf T (env.forwardVector T.rotation) := by
  rcases runTry_mem args env _ h with ⟨hp, hev⟩ | hev | hev | ⟨nm, hev⟩ | hev | hev
    | hev | ⟨bid, hev⟩ | ⟨hev, hfind, hflt, hout⟩ | ⟨bpId, hreach, hmem, hout⟩
  · exact absurd hev (by simp)
  · exact absurd hev (by simp)
  · exact absurd hev (by simp)
  · exact absurd hev (by simp)
  · exact absurd hev (by simp)
  · exact absurd hev (by simp)
  · exact absurd hev (by simp)
  · exact absurd hev (by simp)
  · exact absurd hev (by simp)
  · rcases spawnPhase_mem env bpId _ hmem with hev | ⟨hev, hsps, hout2⟩
      | ⟨sps, sp, hsps, hhd, hev⟩ | hev | ⟨vid, hev⟩ | hev | ⟨hmem2, hout2⟩
    · exact absurd hev (by simp)
    · exact absurd hev (by simp)
    · rcases hev with hev | hev | hev <;> exact absurd hev (by simp)
    · exact absurd hev (by simp)
    · exact absurd hev (by simp)
    · exact absurd hev (by simp)
    · rcases spectatorPhase_mem env _ hmem2 with hev | ⟨T, hT, hev⟩ | hev
        | ⟨hmem3, hout3⟩
      · exact absurd hev (by simp)
      · exact ⟨T, hT, by simpa using hev⟩
      · exact absurd hev (by simp)
      · rcases drivePhase_mem env _ hmem3 with hev | hev | hev | hev | ⟨hev, hout4⟩
        · exact absurd hev (by simp)
        · exact absurd hev (by simp [isLoopEvent])
        · exact absurd hev (by simp)
        · exact absurd hev (by simp)
        · rcases hev with hev | hev | hev | hev | hev <;> exact absurd hev (by simp)

/-- Every spawn request in a run carries a successfully selected blueprint
id and the head of the successfully retrieved spawn-point list. -/
theorem runTry_spawnRequest_mem (args : List String) (env : SdkEnv)
    (b : String) (sp : Transform)
    (h : Event.spawnRequest b sp ∈ (runTry args env).1) :
    reachesSpawn env b ∧
      ∃ sps, env.getRecommendedSpawnPoints = .ok sps ∧ sps.head? = some sp := by
  rcases runTry_mem args env _ h with ⟨hp, hev⟩ | hev | hev | ⟨nm, hev⟩ | hev | hev
    | hev | ⟨bid, hev⟩ | ⟨hev, hfind, hflt, hout⟩ | ⟨bpId, hreach, hmem, hout⟩
  · exact absurd hev (by simp)
  · exact absurd hev (by simp)
  · exact absurd hev (by simp)
  · exact absurd hev (by simp)
  · exact absurd hev (by simp)
  · exact absurd hev (by simp)
  · exact absurd hev (by simp)
  · exact absurd hev (by simp)
  · exact absurd hev (by simp)
  · rcases spawnPhase_mem env bpId _ hmem with hev | ⟨hev, hsps, hout2⟩
      | ⟨sps, sp2, hsps, hhd, hev⟩ | hev | ⟨vid, hev⟩ | hev | ⟨hmem2, hout2⟩
    · exact absurd hev (by simp)
    · exact absurd hev (by simp)
    · rcases hev with hev | hev | hev
      · exact absurd hev (by simp)
      · exact absurd hev (by simp)
      · obtain ⟨hb, hsp⟩ : b = bpId ∧ sp = sp2 := by
          simpa [Event.spawnRequest.injEq] using hev
        subst hb
        subst hsp
        exact ⟨hreach, sps, hsps, hhd⟩
    · exact absurd hev (by simp)
    · exact absurd hev (by simp)
    · exact absurd hev (by simp)
    · rcases spectatorPhase_mem env _ hmem2 with hev | ⟨T, hT, hev⟩ | hev
        | ⟨hmem3, hout3⟩
      · exact absurd hev (by simp)
      · exact absurd hev (by simp)
      · exact absurd hev (by simp)
      · rcases drivePhase_mem env _ hmem3 with hev | hev | hev | hev | ⟨hev, hout4⟩
        · exact absurd hev (by simp)
        · exact absurd hev (by simp [isLoopEvent])
        · exact absurd hev (by simp)
        · exact absurd hev (by simp)
        · rcases hev with hev | hev | hev | hev | hev <;> exact absurd hev (by simp)

/-- The success log line `Scenario completed!` is only printed on runs
whose `try` body terminates through the `std::exit(0)` call. -/
theorem runTry_scenarioCompleted_mem (args : List String) (env : SdkEnv)
    (h : Event.stdout .scenarioCompleted ∈ (runTry args env).1) :
    (runTry args env).2 = .exited 0 := by
  rcases runTry_mem args env _ h with ⟨hp, hev⟩ | hev | hev | ⟨nm, hev⟩ | hev | hev
    | hev | ⟨bid, hev⟩ | ⟨hev, hfind, hflt, hout⟩ | ⟨bpId, hreach, hmem, hout⟩
  · exact absurd hev (by simp)
  · exact absurd hev (by simp)
  · exact absurd hev (by simp)
  · exact absurd hev (by simp)
  · exact absurd hev (by simp)
  · exact absurd hev (by simp)
  · exact absurd hev (by simp)
  · exact absurd hev (by simp)
  · exact absurd hev (by simp)
  · rw [hout]
    rcases spawnPhase_mem env bpId _ hmem with hev | ⟨hev, hsps, hout2⟩
      | ⟨sps, sp, hsps, hhd, hev⟩ | hev | ⟨vid, hev⟩ | hev | ⟨hmem2, hout2⟩
    · exact absurd hev (by simp)
    · exact absurd hev (by simp)
    · rcases hev with hev | hev | hev <;> exact absurd hev (by simp)
    · exact absurd hev (by simp)
    · exact absurd hev (by simp)
    · exact absurd hev (by simp)
    · rw [hout2]
      rcases spectatorPhase_mem env _ hmem2 with hev | ⟨T, hT, hev⟩ | hev
        | ⟨hmem3, hout3⟩
      · exact absurd hev (by simp)
      · exact absurd hev (by simp)
      · exact absurd hev (by simp)
      · rw [hout3]
        rcases drivePhase_mem env _ hmem3 with hev | hev | hev | hev | ⟨hev, hout4⟩
        · exact absurd hev (by simp)
        · exact absurd hev (by simp [isLoopEvent])
        · exact absurd hev (by simp)
        · exact absurd hev (by simp)
        · exact hout4

end Carla

namespace Carla

/-! ## Claim theorems -/

/-- C1: in every run that reaches completion, exactly 50 control messages
are emitted during the driving phase, each with throttle 0.5, steer 0,
brake 0, followed by exactly one braking control with throttle 0, steer 0,
brake 1, and no other control messages are emitted. -/
theorem C1_control_messages (args : List String) (env : SdkEnv)
    (h : (runMain args env).2 = .exited 0) :
    controlsOf (runMain args env).1 =
      List.replicate 50 drivingControl ++ [brakeControl] ∧
      drivingControl = ⟨1/2, 0, 0⟩ ∧ brakeControl = ⟨0, 0, 1⟩ := by
  obtain ⟨heq, h0⟩ := runMain_exit0_eq args env h
  rw [heq]
  obtain ⟨hp, nm, bpSel, bpId, sp, sps, T, vid, ltr, -, -, -, -, -, -, hdt, hbp,
    htr⟩ := runTry_exit0_full args env h0
  have h2 : (driveTicks env 50 0).2 = none := by rw [hdt]
  have hc := driveTicks_controls env 50 0 h2
  rw [hdt] at hc
  refine ⟨?_, rfl, rfl⟩
  rw [htr]
  simp only [controlsOf, List.filterMap_append] at hc ⊢
  rcases hbp with hbp | hbp <;>
    simp [hbp, controlOf, hc]

/-- Witness for C1 at a concrete all-successful oracle. -/
theorem C1_witness :
    (runMain [] okEnv).2 = .exited 0 ∧
      controlsOf (runMain [] okEnv).1 =
        List.replicate 50 drivingControl ++ [brakeControl] :=
  ⟨by rfl, (C1_control_messages [] okEnv (by rfl)).1⟩

/-- C2 counterexample: the empty-filter resource-absence failure is a
failure of the program (it reports an error and makes the process exit
with status 1), yet its stderr diagnostic is `Error: No vehicle blueprints
found`, which does not begin with `Error occurred:`.  So not every failure
produces a diagnostic beginning `Error occurred:`. -/
theorem C2_counterexample :
    (runMain [] envNoBp).2 = .returned 1 ∧
      stderrOf (runMain [] envNoBp).1 = ["Error: No vehicle blueprints found"] ∧
      beginsWith "Error: No vehicle blueprints found" "Error occurred:" = false := by
  exact ⟨by rfl, by rfl, by decide⟩

/-- C2 (amended): for every failure of the program caused by a thrown
condition at an SDK call, the behaviour is a log up to the failure point
followed by a single stderr line beginning `Error occurred:` as the very
last event (hence no control message after the failure point), and
`std::exit(1)`.  (The two resource-absence checks instead write a line
beginning `Error:` directly and return 1, see C10.) -/
theorem C2_thrown_failures (args : List String) (env : SdkEnv) (e : Err)
    (h : (runTry args env).2 = .thrown e) :
    runMain args env = ((runTry args env).1 ++
        [Event.stderr ("Error occurred: " ++ e.msg)], .exited 1) ∧
      stderrOf (runTry args env).1 = [] := by
  have hno : ∀ s, Event.stderr s ∉ (runTry args env).1 := by
    intro s hs
    have h2 := runTry_stderr_mem args env s hs
    rw [h] at h2
    exact absurd h2 (by simp)
  refine ⟨runMain_thrown args env e h, ?_⟩
  rw [stderrOf, List.filterMap_eq_nil_iff]
  intro a ha
  cases a <;> try rfl
  exact absurd ha (hno _)

/-- Witness for C2 (amended) at an oracle whose `GetWorld` call throws. -/
theorem C2_witness :
    runMain [] envThrow = ([Event.stdout (.connecting "localhost" 2000),
      .stdout .gettingWorld, .stderr "Error occurred: connection failed"],
      .exited 1) ∧
      stderrOf (runTry [] envThrow).1 = [] := by
  have h := C2_thrown_failures [] envThrow ⟨"connection failed"⟩ (by rfl)
  exact ⟨by rw [h.1]; rfl, h.2⟩

/-- C3: the spectator transform is computed from the single sampled
vehicle transform `T` with forward vector `f` as
`location = T.location - 7*(f.x, f.y, 0) + (0, 0, 3)` and
`rotation = (pitch = -10, yaw = T.rotation.yaw, roll = T.rotation.roll)`;
every spectator-transform event of every run carries exactly this
transform; and for a vehicle at the origin with zero rotation and forward
vector `(1, 0, 0)` the spectator is placed at `(-7, 0, 3)` with rotation
`(-10, 0, 0)`. -/
theorem C3_spectator_transform (args : List String) (env : SdkEnv)
    (T : Transform) (f : Vec3) :
    (spectatorTransformOf T f).location =
        vadd (vsub T.location (vscale 7 ⟨f.x, f.y, 0⟩)) ⟨0, 0, 3⟩ ∧
      (spectatorTransformOf T f).rotation =
        ⟨-10, T.rotation.yaw, T.rotation.roll⟩ ∧
      (env.getVehicleTransform = .ok T →
        ∀ t, Event.setSpectatorTransform t ∈ (runMain args env).1 →
          t = spectatorTransformOf T (env.forwardVector T.rotation)) ∧
      spectatorTransformOf ⟨⟨0, 0, 0⟩, ⟨0, 0, 0⟩⟩ ⟨1, 0, 0⟩ =
        ⟨⟨-7, 0, 3⟩, ⟨-10, 0, 0⟩⟩ := by
  refine ⟨?_, rfl, ?_, by norm_num [spectatorTransformOf]⟩
  · simp only [spectatorTransformOf, vadd, vsub, vscale, Vec3.mk.injEq]
    refine ⟨by ring, by ring, by ring⟩
  · intro hT t ht
    have hmem : Event.setSpectatorTransform t ∈ (runTry args env).1 := by
      cases ho : (runTry args env).2 with
      | exited n => rwa [runMain_not_thrown args env n (Or.inl ho)] at ht
      | returned n => rwa [runMain_not_thrown args env n (Or.inr ho)] at ht
      | thrown e =>
        rw [runMain_thrown args env e ho] at ht
        simp only [List.mem_append, List.mem_singleton] at ht
        rcases ht with ht | ht
        · exact ht
        · exact absurd ht (by simp)
    obtain ⟨T2, hT2, hval⟩ := runTry_setSpectator_mem args env t hmem
    rw [hT] at hT2
    obtain rfl : T2 = T := by simpa using hT2.symm
    exact hval

/-- Witness for C3 at an oracle whose first loop call throws (the
spectator was already placed); the hypotheses are discharged concretely. -/
theorem C3_witness :
    spectatorTransformOf T0 ⟨1, 0, 0⟩ =
      spectatorTransformOf T0 (envLoopThrow.forwardVector T0.rotation) := by
  have htr : (runMain [] envLoopThrow).1 =
      [Event.stdout (.connecting "localhost" 2000), .stdout .gettingWorld,
       .stdout .gettingMapName, .stdout (.connectedToWorld "Town10HD"),
       .stdout .gettingBlueprintLibrary, .stdout .findingBlueprint,
       .stdout .spawningTesla, .stdout .gettingSpawnPoints,
       .stdout (.spawnPointIs T0.location), .stdout .spawningVehicle,
       .spawnRequest "vehicle.tesla.model3" T0, .stdout .castingVehicle,
       .stdout (.vehicleSpawned 1), .sleepMs 1000, .stdout .settingUpSpectator,
       .setSpectatorTransform (spectatorTransformOf T0 ⟨1, 0, 0⟩),
       .stdout .spectatorPositioned, .stdout .scenarioStart,
       .applyControl drivingControl, .stderr "Error occurred: rpc failed"] := by
    rfl
  exact (C3_spectator_transform [] envLoopThrow T0 ⟨1, 0, 0⟩).2.2.1 (by rfl)
    (spectatorTransformOf T0 ⟨1, 0, 0⟩) (by rw [htr]; simp)

end Carla

namespace Carla

/-- A non-stderr event of a full run already occurs in the `try` body (the
handler only ever appends one stderr line). -/
theorem runMain_mem_of_ne_stderr (args : List String) (env : SdkEnv) (ev : Event)
    (hne : ∀ s, ev ≠ Event.stderr s) (h : ev ∈ (runMain args env).1) :
    ev ∈ (runTry args env).1 := by
  cases ho : (runTry args env).2 with
  | exited n => rwa [runMain_not_thrown args env n (Or.inl ho)] at h
  | returned n => rwa [runMain_not_thrown args env n (Or.inr ho)] at h
  | thrown e =>
    rw [runMain_thrown args env e ho] at h
    simp only [List.mem_append, List.mem_singleton] at h
    rcases h with h | h
    · exact h
    · exact absurd h (hne _)

/-- Every event of the `try` body also occurs in the full run. -/
theorem runTry_mem_runMain (args : List String) (env : SdkEnv) (ev : Event)
    (h : ev ∈ (runTry args env).1) : ev ∈ (runMain args env).1 := by
  cases ho : (runTry args env).2 with
  | exited n => rwa [runMain_not_thrown args env n (Or.inl ho)]
  | returned n => rwa [runMain_not_thrown args env n (Or.inr ho)]
  | thrown e =>
    rw [runMain_thrown args env e ho]
    simp [h]

/-- Events in the prefix of a call step are in its trace whatever the call
returns. -/
theorem mem_step_pre {α : Type} (pre : List Event) (r : Except Err α)
    (k : α → List Event × Outcome) (ev : Event) (h : ev ∈ pre) :
    ev ∈ (step pre r k).1 := by
  cases r <;> simp [step, h]

/-- A spawn phase whose spawn-point query returns a nonempty list issues
the spawn request at the list's head. -/
theorem spawnPhase_spawnRequest_mem (env : SdkEnv) (bpId : String)
    (sp : Transform) (sps : List Transform)
    (hsps : env.getRecommendedSpawnPoints = .ok (sp :: sps)) :
    Event.spawnRequest bpId sp ∈ (spawnPhase env bpId).1 := by
  simp only [spawnPhase, hsps, step_ok]
  simp only [List.mem_append, List.mem_cons]
  right
  exact mem_step_pre _ _ _ _ (by simp)

/-- A run that gets through the connection phase, selects a blueprint and
retrieves a nonempty spawn-point list issues the spawn request for that
blueprint at spawn point 0. -/
theorem runTry_spawnRequest_of (args : List String) (env : SdkEnv)
    (bpId : String) (sp : Transform) (sps : List Transform)
    (hok : connectOks args env) (hreach : reachesSpawn env bpId)
    (hsps : env.getRecommendedSpawnPoints = .ok (sp :: sps)) :
    Event.spawnRequest bpId sp ∈ (runTry args env).1 := by
  obtain ⟨⟨hp, hcfg⟩, hc, hw, hm, ⟨nm, hnm⟩, hb⟩ := hok
  have hsp := spawnPhase_spawnRequest_mem env bpId sp sps hsps
  rcases hreach with hfind | ⟨hfind, rest, hflt⟩
  · simp only [runTry, hcfg, hc, hw, hm, hnm, hb, hfind, step_ok]
    simp [List.mem_append, hsp]
  · simp only [runTry, hcfg, hc, hw, hm, hnm, hb, hfind, hflt, step_ok]
    simp [List.mem_append, hsp]

/-- C4: blueprint selection.  (1) Every spawn request of every run uses
either the blueprint returned by the exact `vehicle.tesla.model3` lookup,
or, when the lookup returned null, the first match of the `vehicle.*`
filter.  (2) Whenever the run reaches selection, selects a blueprint and
gets spawn points, the spawn request for that blueprint is issued.
(3) When the lookup returns null and the filter result is empty, the run
fails with the `No vehicle blueprints` diagnostic and exit status 1. -/
theorem C4_blueprint_selection (args : List String) (env : SdkEnv) :
    (∀ bpId sp, Event.spawnRequest bpId sp ∈ (runMain args env).1 →
        env.findModel3 = .ok (some ⟨bpId⟩) ∨
          (env.findModel3 = .ok none ∧
            ∃ rest, env.filterVehicles = .ok (⟨bpId⟩ :: rest))) ∧
      (∀ bpId sp sps, connectOks args env → reachesSpawn env bpId →
        env.getRecommendedSpawnPoints = .ok (sp :: sps) →
        Event.spawnRequest bpId sp ∈ (runMain args env).1) ∧
      (connectOks args env → env.findModel3 = .ok none →
        env.filterVehicles = .ok [] →
        stderrOf (runMain args env).1 = ["Error: No vehicle blueprints found"] ∧
          (runMain args env).2 = .returned 1) := by
  refine ⟨?_, ?_, ?_⟩
  · intro bpId sp h
    have h2 := runMain_mem_of_ne_stderr args env _ (by simp) h
    exact (runTry_spawnRequest_mem args env bpId sp h2).1
  · intro bpId sp sps hok hreach hsps
    exact runTry_mem_runMain args env _
      (runTry_spawnRequest_of args env bpId sp sps hok hreach hsps)
  · intro hok hfind hflt
    obtain ⟨⟨hp, hcfg⟩, hc, hw, hm, ⟨nm, hnm⟩, hb⟩ := hok
    have ho : (runTry args env).2 = .returned 1 := by
      simp [runTry, hcfg, hc, hw, hm, hnm, hb, hfind, hflt, step_ok]
    rw [runMain_not_thrown args env 1 (Or.inr ho)]
    refine ⟨?_, ho⟩
    simp [runTry, hcfg, hc, hw, hm, hnm, hb, hfind, hflt, step_ok, stderrOf,
      stderrLineOf]

/-- Witness for C4: on an oracle without the Tesla blueprint but with a
fallback `vehicle.audi.tt`, the spawn request uses the first filter match
at spawn point 0. -/
theorem C4_witness :
    Event.spawnRequest "vehicle.audi.tt" T0 ∈ (runMain [] envFallback).1 :=
  (C4_blueprint_selection [] envFallback).2.1 "vehicle.audi.tt" T0 []
    ⟨⟨("localhost", 2000), rfl⟩, rfl, rfl, rfl, ⟨"Town10HD", rfl⟩, rfl⟩
    (Or.inr ⟨rfl, [], rfl⟩) rfl

/-- C5: no run ever issues a server-side destroy on the actor; a run that
prints the success line terminates through the immediate `std::exit(0)`
call; and every run that exits with 0 released the local vehicle and actor
handles (the two `reset()` calls) before the exit. -/
theorem C5_teardown (args : List String) (env : SdkEnv) :
    Event.destroyActor ∉ (runMain args env).1 ∧
      (Event.stdout .scenarioCompleted ∈ (runMain args env).1 →
        (runMain args env).2 = .exited 0) ∧
      ((runMain args env).2 = .exited 0 →
        Event.resetHandle 0 ∈ (runMain args env).1 ∧
          Event.resetHandle 1 ∈ (runMain args env).1) := by
  refine ⟨?_, ?_, ?_⟩
  · intro h
    exact runTry_no_destroy args env (runMain_mem_of_ne_stderr args env _ (by simp) h)
  · intro h
    have h2 := runTry_scenarioCompleted_mem args env
      (runMain_mem_of_ne_stderr args env _ (by simp) h)
    rw [runMain_not_thrown args env 0 (Or.inl h2)]
    exact h2
  · intro h
    obtain ⟨heq, h0⟩ := runMain_exit0_eq args env h
    rw [heq]
    obtain ⟨hp, nm, bpSel, bpId, sp, sps, T, vid, ltr, -, -, -, -, -, -, -, hbp,
      htr⟩ := runTry_exit0_full args env h0
    rw [htr]
    constructor <;> simp

/-- Witness for C5 at a concrete all-successful oracle. -/
theorem C5_witness :
    Event.resetHandle 0 ∈ (runMain [] okEnv).1 ∧
      Event.resetHandle 1 ∈ (runMain [] okEnv).1 :=
  (C5_teardown [] okEnv).2.2 (by rfl)

end Carla

namespace Carla

theorem stoi_error_msg (s : String) (e : Err) (h : stoi s = .error e) :
    e = ⟨"stoi"⟩ := by
  simp only [stoi] at h
  repeat' split at h
  all_goals
    first
      | exact (Except.error.inj h).symm
      | exact absurd h (by simp)

theorem digit_not_space (c : Char) (hc : c.isDigit = true) :
    isSpaceChar c = false := by
  by_contra hsp
  rw [Bool.not_eq_false] at hsp
  simp only [isSpaceChar, Bool.or_eq_true, decide_eq_true_eq, or_assoc] at hsp
  rcases hsp with h | h | h | h | h | h <;> subst h <;> exact absurd hc (by decide)

theorem digit_ne (c : Char) (hc : c.isDigit = true) : c ≠ '-' ∧ c ≠ '+' := by
  constructor <;> intro h <;> subst h <;> exact absurd hc (by decide)

theorem takeWhile_all_digits (l : List Char) (h : l.all Char.isDigit = true) :
    l.takeWhile Char.isDigit = l := by
  induction l with
  | nil => rfl
  | cons c cs ih =>
    simp only [List.all_cons, Bool.and_eq_true] at h
    simp [List.takeWhile_cons, h.1, ih h.2]

theorem stoi_numeral (s : String) (h1 : isNumeral s = true)
    (h2 : (numeralValue s : Int) ≤ 2147483647) :
    stoi s = .ok (numeralValue s) := by
  simp only [isNumeral, Bool.and_eq_true, Bool.not_eq_eq_eq_not, Bool.not_false] at h1
  obtain ⟨hne, hall⟩ := h1
  cases hd : s.data with
  | nil => rw [hd] at hne; simp at hne
  | cons c cs =>
    rw [hd] at hall
    have hcd : c.isDigit = true := by
      simp only [List.all_cons, Bool.and_eq_true] at hall
      exact hall.1
    obtain ⟨hdash, hplus⟩ := digit_ne c hcd
    have hdrop : (c :: cs).dropWhile isSpaceChar = c :: cs := by
      simp [List.dropWhile_cons, digit_not_space c hcd]
    have htake : (c :: cs).takeWhile Char.isDigit = c :: cs :=
      takeWhile_all_digits _ hall
    have hnn : (0 : Int) ≤ (digitsToNat (c :: cs) : Int) := Int.ofNat_nonneg _
    rw [numeralValue, hd] at h2
    have hA : ((c :: cs).head? = some '-') = False := by simp [hdash]
    have hB : ((c :: cs).head? = some '+') = False := by simp [hplus]
    simp only [stoi, hd, hdrop, hA, hB, htake, numeralValue, decide_False,
      Bool.or_false, Bool.false_or, if_false, ite_false]
    simp only [Bool.false_eq_true, if_false, htake]
    rw [if_neg (by simp), if_neg (by omega), if_neg (by omega)]

end Carla

namespace Carla

/-- C6 counterexample: `"70000"` does not denote an unsigned 16-bit
integer (70000 ≥ 65536), yet the program accepts it: `std::stoi` parses it
to 70000, the `uint16_t` assignment wraps it to 4464, and the run proceeds
normally (exit 0 on an all-successful oracle) instead of failing with
status 1. -/
theorem C6_counterexample :
    stoi "70000" = .ok 70000 ∧ 65536 ≤ 70000 ∧
      portOf ["10.0.0.5", "70000"] = .ok 4464 ∧
      (runMain ["10.0.0.5", "70000"] okEnv).2 = .exited 0 :=
  ⟨by rfl, by norm_num, by rfl, by rfl⟩

/-- C6 (amended): the second argument is accepted iff `std::stoi` accepts
it (optional leading whitespace and sign, a nonempty digit prefix,
trailing characters ignored, value within the signed 32-bit int range);
the port is the parsed value reduced modulo 2^16 rather than being
required to fit 16 bits; an argument `stoi` rejects (e.g. `"notanumber"`)
makes the parse throw, the handler reports `Error occurred: stoi`, and the
process exits with status 1 — before any other observable event. -/
theorem C6_port_parsing (host p : String) (rest : List String) (env : SdkEnv) :
    (∀ v : Int, stoi p = .ok v →
        portOf (host :: p :: rest) = .ok ((v % 65536).toNat)) ∧
      (∀ e : Err, stoi p = .error e →
        runMain (host :: p :: rest) env =
          ([Event.stderr ("Error occurred: " ++ "stoi")], .exited 1)) := by
  constructor
  · intro v hv
    simp [portOf, hv, toUInt16Nat]
  · intro e he
    have hmsg : e = ⟨"stoi"⟩ := stoi_error_msg p e he
    subst hmsg
    have hcfg : configOf (host :: p :: rest) = .error ⟨"stoi"⟩ := by
      simp [configOf, portOf, he]
    have ho : runTry (host :: p :: rest) env = ([], .thrown ⟨"stoi"⟩) := by
      simp [runTry, hcfg]
    have h2 := runMain_thrown (host :: p :: rest) env ⟨"stoi"⟩ (by rw [ho])
    rw [h2, ho]
    rfl

/-- Witness for C6 (amended): a numeric port is accepted, and
`"notanumber"` fails during port parsing with exit status 1. -/
theorem C6_witness :
    portOf ["10.0.0.5", "3000"] = .ok ((3000 : Int) % 65536).toNat ∧
      runMain ["10.0.0.5", "notanumber"] okEnv =
        ([Event.stderr ("Error occurred: " ++ "stoi")], .exited 1) :=
  ⟨(C6_port_parsing "10.0.0.5" "3000" [] okEnv).1 3000 (by rfl),
   (C6_port_parsing "10.0.0.5" "notanumber" [] okEnv).2 ⟨"stoi"⟩ (by rfl)⟩

/-- C7 counterexample: `"70000"` is numeric, but with arguments
`["10.0.0.5", "70000"]` the configuration is host `"10.0.0.5"` and port
4464, not 70000 — so "with two arguments H and a numeric P, port = P"
fails. -/
theorem C7_counterexample :
    isNumeral "70000" = true ∧
      configOf ["10.0.0.5", "70000"] = .ok ("10.0.0.5", 4464) ∧
      (4464 : ℕ) ≠ 70000 :=
  ⟨by decide, by rfl, by decide⟩

/-- C7 (amended): with no arguments, host `localhost` and port 2000; with
one argument H, host H and port 2000; with two arguments H and a numeral P
whose value is below 65536, host H and port `value P`; arguments beyond
the second are ignored. -/
theorem C7_argument_handling :
    configOf [] = .ok ("localhost", 2000) ∧
      (∀ h : String, configOf [h] = .ok (h, 2000)) ∧
      (∀ (h p : String) (rest : List String), isNumeral p = true →
        numeralValue p < 65536 →
        configOf (h :: p :: rest) = .ok (h, numeralValue p)) ∧
      (∀ (h p : String) (rest : List String),
        configOf (h :: p :: rest) = configOf [h, p]) := by
  refine ⟨by rfl, ?_, ?_, ?_⟩
  · intro h
    simp [configOf, portOf, hostOf]
  · intro h p rest hnum hlt
    have hs : stoi p = .ok (numeralValue p) :=
      stoi_numeral p hnum (by omega)
    simp only [configOf, portOf, hs, hostOf, toUInt16Nat]
    congr 1
    congr 1
    omega
  · intro h p rest
    cases hs : stoi p <;> simp [configOf, portOf, hostOf, hs]

/-- Witness for C7 (amended) at the concrete arguments of the spec. -/
theorem C7_witness :
    configOf ["10.0.0.5", "3000"] = .ok ("10.0.0.5", numeralValue "3000") :=
  C7_argument_handling.2.2.1 "10.0.0.5" "3000" [] (by decide) (by decide)

end Carla

namespace Carla

/-- `reducedOf` distributes over append. -/
theorem reducedOf_append (a b : List Event) :
    reducedOf (a ++ b) = reducedOf a ++ reducedOf b :=
  List.filter_append _ _

/-- Control/telemetry restriction of the canonical loop trace: per tick,
the driving control, then the location sample, then the velocity sample,
then the telemetry log line. -/
theorem reducedOf_flatten_ticks (L V : ℕ → Vec3) :
    ∀ fuel i : ℕ,
      reducedOf (((List.range' i fuel).map
          (fun j => tickEvents j (L j) (V j))).flatten) =
        ((List.range' i fuel).map (fun j =>
          [Event.applyControl drivingControl, .sampleLocation (L j),
           .sampleVelocity (V j),
           .stdout (.telemetry j (L j) (V j) (speedKmhSq (V j)))])).flatten := by
  intro fuel
  induction fuel with
  | zero => intro i; rfl
  | succ n ih =>
    intro i
    simp only [List.range'_succ, List.map_cons, List.flatten_cons,
      reducedOf_append, ih (i + 1)]
    rfl

/-- C8: on every run that reaches completion, per driving tick exactly one
location sample and one velocity sample are taken, after that tick's
control message, and the telemetry line logs the sampled values with the
speed computed from the sampled velocity; the logged speed (recorded by
its square, which is rational) equals `3.6 * sqrt(vx^2 + vy^2 + vz^2)`. -/
theorem C8_telemetry (args : List String) (env : SdkEnv) (L V : ℕ → Vec3)
    (h : (runMain args env).2 = .exited 0)
    (hL : ∀ i, i < 50 → env.getLocation i = .ok (L i))
    (hV : ∀ i, i < 50 → env.getVelocity i = .ok (V i)) :
    reducedOf (runMain args env).1 =
      ((List.range' 0 50).map (fun i =>
        [Event.applyControl drivingControl, .sampleLocation (L i),
         .sampleVelocity (V i),
         .stdout (.telemetry i (L i) (V i) (speedKmhSq (V i)))])).flatten ++
        [Event.applyControl brakeControl] ∧
      ∀ v : Vec3, Real.sqrt ((speedKmhSq v : ℚ) : ℝ) =
        3.6 * Real.sqrt ((v.x : ℝ) ^ 2 + (v.y : ℝ) ^ 2 + (v.z : ℝ) ^ 2) := by
  constructor
  · obtain ⟨heq, h0⟩ := runMain_exit0_eq args env h
    rw [heq]
    obtain ⟨hp, nm, bpSel, bpId, sp, sps, T, vid, ltr, -, -, -, -, -, -, hdt, hbp,
      htr⟩ := runTry_exit0_full args env h0
    have h2 : (driveTicks env 50 0).2 = none := by rw [hdt]
    have hap := driveTicks_applyOk env 50 0 h2
    have hcanon := driveTicks_canonical env L V 50 0
      (fun j hj1 hj2 => ⟨by simpa using hap j (by omega),
        hL j (by omega), hV j (by omega)⟩)
    have hltr : ltr =
        ((List.range' 0 50).map (fun j => tickEvents j (L j) (V j))).flatten := by
      have h3 := hdt.symm.trans hcanon
      simpa using congrArg Prod.fst h3
    rw [htr, hltr]
    rcases hbp with hbp | hbp <;>
      (rw [hbp]
       simp only [reducedOf_append, reducedOf_flatten_ticks L V]
       rfl)
  · intro v
    rw [show ((speedKmhSq v : ℚ) : ℝ) =
        ((v.x : ℝ) ^ 2 + (v.y : ℝ) ^ 2 + (v.z : ℝ) ^ 2) * (3.6 : ℝ) ^ 2 from by
      push_cast [speedKmhSq]
      ring]
    rw [Real.sqrt_mul (by positivity), Real.sqrt_sq (by norm_num)]
    ring

/-- Witness for C8 at a concrete all-successful oracle with zero vectors. -/
theorem C8_witness :
    reducedOf (runMain [] okEnv).1 =
      ((List.range' 0 50).map (fun i =>
        [Event.applyControl drivingControl, .sampleLocation ⟨0, 0, 0⟩,
         .sampleVelocity ⟨0, 0, 0⟩,
         .stdout (.telemetry i ⟨0, 0, 0⟩ ⟨0, 0, 0⟩ (speedKmhSq ⟨0, 0, 0⟩))])).flatten ++
        [Event.applyControl brakeControl] :=
  (C8_telemetry [] okEnv (fun _ => ⟨0, 0, 0⟩) (fun _ => ⟨0, 0, 0⟩) (by rfl)
    (fun _ _ => rfl) (fun _ _ => rfl)).1

/-- A run that reaches spawn-point retrieval and gets an empty list fails
directly: `Error: No spawn points found` on stderr, `return 1`, no spawn
request and no control message. -/
theorem runTry_no_spawn_points (args : List String) (env : SdkEnv) (bpId : String)
    (hok : connectOks args env) (hreach : reachesSpawn env bpId)
    (hsps : env.getRecommendedSpawnPoints = .ok []) :
    (runTry args env).2 = .returned 1 ∧
      stderrOf (runTry args env).1 = ["Error: No spawn points found"] ∧
      (∀ b sp, Event.spawnRequest b sp ∉ (runTry args env).1) ∧
      controlsOf (runTry args env).1 = [] := by
  obtain ⟨⟨hp, hcfg⟩, hc, hw, hmap, ⟨nm, hnm⟩, hb⟩ := hok
  have hspq : spawnPhase env bpId =
      ([Event.stdout .gettingSpawnPoints,
        .stderr "Error: No spawn points found"], .returned 1) := by
    simp [spawnPhase, hsps, step_ok]
  rcases hreach with hfind | ⟨hfind, rest, hflt⟩
  · refine ⟨?_, ?_, ?_, ?_⟩ <;>
      simp [runTry, hcfg, hc, hw, hmap, hnm, hb, hfind, step_ok, hspq,
        stderrOf, stderrLineOf, controlsOf, controlOf]
  · refine ⟨?_, ?_, ?_, ?_⟩ <;>
      simp [runTry, hcfg, hc, hw, hmap, hnm, hb, hfind, hflt, step_ok, hspq,
        stderrOf, stderrLineOf, controlsOf, controlOf]

/-- A run that reaches blueprint selection, misses the exact lookup and
gets an empty filter result fails directly: `Error: No vehicle blueprints
found` on stderr, `return 1`, no spawn request and no control message. -/
theorem runTry_no_blueprints (args : List String) (env : SdkEnv)
    (hok : connectOks args env) (hfind : env.findModel3 = .ok none)
    (hflt : env.filterVehicles = .ok []) :
    (runTry args env).2 = .returned 1 ∧
      stderrOf (runTry args env).1 = ["Error: No vehicle blueprints found"] ∧
      (∀ b sp, Event.spawnRequest b sp ∉ (runTry args env).1) ∧
      controlsOf (runTry args env).1 = [] := by
  obtain ⟨⟨hp, hcfg⟩, hc, hw, hmap, ⟨nm, hnm⟩, hb⟩ := hok
  refine ⟨?_, ?_, ?_, ?_⟩ <;>
    simp [runTry, hcfg, hc, hw, hmap, hnm, hb, hfind, hflt, step_ok,
      stderrOf, stderrLineOf, controlsOf, controlOf]

/-- C9: every spawn request of every run uses the head (index 0) of the
successfully retrieved recommended spawn-point list, and a run that
reaches spawn-point retrieval and finds the list empty reports it and
exits with status 1 without issuing any spawn request. -/
theorem C9_spawn_selection (args : List String) (env : SdkEnv) :
    (∀ b sp, Event.spawnRequest b sp ∈ (runMain args env).1 →
        ∃ sps, env.getRecommendedSpawnPoints = .ok sps ∧ sps.head? = some sp) ∧
      (∀ bpId, connectOks args env → reachesSpawn env bpId →
        env.getRecommendedSpawnPoints = .ok [] →
        stderrOf (runMain args env).1 = ["Error: No spawn points found"] ∧
          (runMain args env).2 = .returned 1 ∧
          ∀ b sp, Event.spawnRequest b sp ∉ (runMain args env).1) := by
  constructor
  · intro b sp h
    exact (runTry_spawnRequest_mem args env b sp
      (runMain_mem_of_ne_stderr args env _ (by simp) h)).2
  · intro bpId hok hreach hsps
    obtain ⟨ho, hstderr, hnospawn, -⟩ :=
      runTry_no_spawn_points args env bpId hok hreach hsps
    rw [runMain_not_thrown args env 1 (Or.inr ho)]
    exact ⟨hstderr, ho, hnospawn⟩

/-- Witness for C9 at an oracle with an empty spawn-point list. -/
theorem C9_witness :
    stderrOf (runMain [] envNoSpawn).1 = ["Error: No spawn points found"] ∧
      (runMain [] envNoSpawn).2 = .returned 1 :=
  ⟨((C9_spawn_selection [] envNoSpawn).2 "vehicle.tesla.model3"
      ⟨⟨("localhost", 2000), rfl⟩, rfl, rfl, rfl, ⟨"Town10HD", rfl⟩, rfl⟩
      (Or.inl rfl) rfl).1,
   ((C9_spawn_selection [] envNoSpawn).2 "vehicle.tesla.model3"
      ⟨⟨("localhost", 2000), rfl⟩, rfl, rfl, rfl, ⟨"Town10HD", rfl⟩, rfl⟩
      (Or.inl rfl) rfl).2.1⟩

/-- C10: on both resource-absence failure paths (empty `vehicle.*` filter
result, empty recommended spawn-point list) the program returns 1 before
any spawn request and before any control message, the single diagnostic
begins `Error:`, and the handler is not involved (`runMain` equals the
`try` body: the line is written directly and `main` returns 1 rather than
exiting through the catch block). -/
theorem C10_resource_absence (args : List String) (env : SdkEnv) :
    (connectOks args env → env.findModel3 = .ok none →
      env.filterVehicles = .ok [] →
      runMain args env = runTry args env ∧
        (runMain args env).2 = .returned 1 ∧
        stderrOf (runMain args env).1 = ["Error: No vehicle blueprints found"] ∧
        beginsWith "Error: No vehicle blueprints found" "Error:" = true ∧
        (∀ b sp, Event.spawnRequest b sp ∉ (runMain args env).1) ∧
        controlsOf (runMain args env).1 = []) ∧
      (∀ bpId, connectOks args env → reachesSpawn env bpId →
        env.getRecommendedSpawnPoints = .ok [] →
        runMain args env = runTry args env ∧
          (runMain args env).2 = .returned 1 ∧
          stderrOf (runMain args env).1 = ["Error: No spawn points found"] ∧
          beginsWith "Error: No spawn points found" "Error:" = true ∧
          (∀ b sp, Event.spawnRequest b sp ∉ (runMain args env).1) ∧
          controlsOf (runMain args env).1 = []) := by
  constructor
  · intro hok hfind hflt
    obtain ⟨ho, hstderr, hnospawn, hctrl⟩ :=
      runTry_no_blueprints args env hok hfind hflt
    have hm := runMain_not_thrown args env 1 (Or.inr ho)
    rw [hm]
    exact ⟨rfl, ho, hstderr, by decide, hnospawn, hctrl⟩
  · intro bpId hok hreach hsps
    obtain ⟨ho, hstderr, hnospawn, hctrl⟩ :=
      runTry_no_spawn_points args env bpId hok hreach hsps
    have hm := runMain_not_thrown args env 1 (Or.inr ho)
    rw [hm]
    exact ⟨rfl, ho, hstderr, by decide, hnospawn, hctrl⟩

/-- Witness for C10 at an oracle with an empty blueprint filter result. -/
theorem C10_witness :
    runMain [] envNoBp = runTry [] envNoBp ∧
      (runMain [] envNoBp).2 = .returned 1 :=
  ⟨((C10_resource_absence [] envNoBp).1
      ⟨⟨("localhost", 2000), rfl⟩, rfl, rfl, rfl, ⟨"Town10HD", rfl⟩, rfl⟩
      rfl rfl).1,
   ((C10_resource_absence [] envNoBp).1
      ⟨⟨("localhost", 2000), rfl⟩, rfl, rfl, rfl, ⟨"Town10HD", rfl⟩, rfl⟩
      rfl rfl).2.1⟩

end Carla
